import Mathlib

/-!
Shallow embedding of the lab4 key-value store server (src/lab4/server.py):
a single-leader, multi-follower in-memory store with a tunable write quorum.

Handlers are modelled as pure functions from an explicit store / quorum
state and a parsed request to a response and the new state.  The
nondeterminism of the replication fan-out (completion order, per-attempt
success, timeout or exception) is captured by a list of `AttemptEvent`s
given in completion order, matching the `asyncio.as_completed` loop of
`put_key`.  The lock usage of the handlers is modelled separately as
action traces for the lock-discipline analysis.
-/

namespace Lab4

/-- A JSON value as handled by the server: JSON `null` or a string (the
data model maps string keys to string values, but `null` can still arrive
in a request body and is stored without validation). -/
inductive JVal where
  | null
  | str (s : String)
deriving DecidableEq, Repr

/-- The in-memory dict `store = {}`; `none` means the key is absent. -/
def Store := String → Option JVal

/-- The initial empty store. -/
def Store.empty : Store := fun _ => none

/-- `write_local`: `store[key] = value` (performed under `store_lock`). -/
def write_local (st : Store) (key : String) (value : JVal) : Store :=
  fun k => if k = key then some value else st k

/-- `read_local`: `store.get(key)`; yields the Python object stored, or
Python `None` when the key is absent. -/
def read_local (st : Store) (key : String) : Option JVal :=
  st key

/-- JSON response bodies produced by the handlers. -/
inductive Body where
  | notFound
  | foundVal (v : JVal)
  | err (msg : String)
  | okStatus
  | okConfirmed (n : Int)
  | errReason (reason : String)
  | errQuorumCount (n : Int) (reason : String)
  | okQuorumSet (n : Int)
  | quorumVal (n : Int)
deriving DecidableEq, Repr

/-- An HTTP response: status code and JSON body. -/
structure Response where
  status : Nat
  body : Body
deriving DecidableEq, Repr

/-- The `get_key` handler.  `store.get(key)` returns the Python object
`None` both when the key is absent and when the stored value is JSON
`null`, so `if val is None` takes the 404 branch in both cases. -/
def get_key (st : Store) (key : String) : Response :=
  match read_local st key with
  | none => ⟨404, .notFound⟩
  | some .null => ⟨404, .notFound⟩
  | some (.str s) => ⟨200, .foundVal (.str s)⟩

/-- Parsed request body for `POST /replicate`; either field may be
missing from the JSON object. -/
structure ReplicateBody where
  key? : Option String
  value? : Option JVal
deriving DecidableEq, Repr

/-- Parsed request body for `POST /put/\x7bkey\x7d`. -/
structure PutBody where
  value? : Option JVal
deriving DecidableEq, Repr

/-- Parsed request body for `POST /admin/set_quorum`. -/
structure QuorumBody where
  quorum? : Option Int
deriving DecidableEq, Repr

/-- A request body as seen by a handler: `badJson` models
`await request.json()` raising (caught, answered with 400). -/
inductive Req (β : Type) where
  | badJson
  | parsed (body : β)

/-- The `replicate` handler: validates that both fields are present,
then commits the pair to the local store. -/
def replicate (st : Store) (req : Req ReplicateBody) : Response × Store :=
  match req with
  | .badJson => (⟨400, .err "bad request"⟩, st)
  | .parsed body =>
    match body.key?, body.value? with
    | some key, some value => (⟨200, .okStatus⟩, write_local st key value)
    | _, _ => (⟨400, .err "bad request"⟩, st)

/-- What can happen to one outbound replication attempt: the follower
answers with some HTTP status, or the attempt raises (connection error
or timeout). -/
inductive AttemptEvent where
  | response (status : Nat)
  | raised
deriving DecidableEq, Repr

/-- The `try`-body of `replicate_to_follower`: returns `True` on a 200
response, `False` on any other status, and raises (modelled as
`Except.error`) when the sleep or the POST throws. -/
def replicate_to_follower_try : AttemptEvent → Except Unit Bool
  | .response s => .ok (s == 200)
  | .raised => .error ()

/-- `replicate_to_follower`: the `except` handler absorbs every raised
exception into the `return False` fall-through, so the function is total
and Bool-valued. -/
def replicate_to_follower (e : AttemptEvent) : Bool :=
  match replicate_to_follower_try e with
  | .ok b => b
  | .error _ => false

/-- Node configuration fixed at process start: `ROLE` and `FOLLOWERS`. -/
structure Config where
  role : String
  followers : List String
deriving DecidableEq, Repr

/-- The confirmation-counting loop of `put_key` over the attempt results
in completion order: each `True` increments `confirmations` and triggers
the early success return once `confirmations >= required`; after all
attempts complete, the final check decides success or
"quorum not reached". -/
def quorum_loop (required : Int) (confirmations : Int) : List Bool → Response
  | [] =>
    if required ≤ confirmations then ⟨200, .okConfirmed confirmations⟩
    else ⟨500, .errQuorumCount confirmations "quorum not reached"⟩
  | success :: rest =>
    if success then
      if required ≤ confirmations + 1 then ⟨200, .okConfirmed (confirmations + 1)⟩
      else quorum_loop required (confirmations + 1) rest
    else quorum_loop required confirmations rest

/-- The `put_key` handler on state `(st, quorum)`: role gate, body
validation, unconditional local write, then the zero-follower branch or
the concurrent fan-out whose completion-ordered outcomes are `events`. -/
def put_key (cfg : Config) (quorum : Int) (st : Store) (key : String)
    (req : Req PutBody) (events : List AttemptEvent) : Response × Store :=
  if cfg.role ≠ "leader" then (⟨403, .err "not leader"⟩, st)
  else
    match req with
    | .badJson => (⟨400, .err "bad request"⟩, st)
    | .parsed body =>
      match body.value? with
      | none => (⟨400, .err "bad request"⟩, st)
      | some value =>
        let st2 := write_local st key value
        let required := quorum
        if cfg.followers.length = 0 then
          if required ≤ 0 then (⟨200, .okConfirmed 0⟩, st2)
          else (⟨500, .errReason "no followers"⟩, st2)
        else
          (quorum_loop required 0 (events.map replicate_to_follower), st2)

/-- The `admin_set_quorum` handler on the mutable `WRITE_QUORUM` state:
role gate, body validation, then the unvalidated assignment
`WRITE_QUORUM = int(body["quorum"])`. -/
def admin_set_quorum (cfg : Config) (quorum : Int) (req : Req QuorumBody) :
    Response × Int :=
  if cfg.role ≠ "leader" then (⟨403, .err "not leader"⟩, quorum)
  else
    match req with
    | .badJson => (⟨400, .err "bad request"⟩, quorum)
    | .parsed body =>
      match body.quorum? with
      | none => (⟨400, .err "bad request"⟩, quorum)
      | some n => (⟨200, .okQuorumSet n⟩, n)

/-- The `admin_get_quorum` handler: no role gate, returns the current
`WRITE_QUORUM`. -/
def admin_get_quorum (quorum : Int) : Response :=
  ⟨200, .quorumVal quorum⟩

/-- Number of `true` entries in a list of attempt results. -/
def countTrue : List Bool → Int
  | [] => 0
  | b :: r => (if b then 1 else 0) + countTrue r

lemma countTrue_nonneg (bs : List Bool) : 0 ≤ countTrue bs := by
  induction bs with
  | nil => simp [countTrue]
  | cons b r ih => cases b <;> simp [countTrue] <;> omega

lemma quorum_loop_success (required : Int) (bs : List Bool) :
    ∀ c : Int, required ≤ c + countTrue bs →
      ∃ n, quorum_loop required c bs = ⟨200, .okConfirmed n⟩ ∧ required ≤ n := by
  induction bs with
  | nil =>
    intro c h
    simp [countTrue] at h
    exact ⟨c, by simp [quorum_loop, h], h⟩
  | cons b rest ih =>
    intro c h
    cases b with
    | true =>
      by_cases hq : required ≤ c + 1
      · exact ⟨c + 1, by simp [quorum_loop, hq], hq⟩
      · have h2 : required ≤ (c + 1) + countTrue rest := by
          simp [countTrue] at h; omega
        obtain ⟨n, hn, hrn⟩ := ih (c + 1) h2
        exact ⟨n, by simp [quorum_loop, hq, hn], hrn⟩
    | false =>
      have h2 : required ≤ c + countTrue rest := by
        simp [countTrue] at h; omega
      obtain ⟨n, hn, hrn⟩ := ih c h2
      exact ⟨n, by simp [quorum_loop, hn], hrn⟩

lemma quorum_loop_fail (required : Int) (bs : List Bool) :
    ∀ c : Int, c + countTrue bs < required →
      quorum_loop required c bs =
        ⟨500, .errQuorumCount (c + countTrue bs) "quorum not reached"⟩ := by
  induction bs with
  | nil =>
    intro c h
    simp [countTrue] at h ⊢
    simp [quorum_loop, not_le.mpr h]
  | cons b rest ih =>
    intro c h
    cases b with
    | true =>
      have hcnt : c + countTrue (true :: rest) = (c + 1) + countTrue rest := by
        simp [countTrue]; ring
      have h1 : (c + 1) + countTrue rest < required := by rw [hcnt] at h; exact h
      have hq : ¬ required ≤ c + 1 := by
        have := countTrue_nonneg rest; omega
      rw [hcnt]
      have hstep : quorum_loop required c (true :: rest) =
          quorum_loop required (c + 1) rest := by simp [quorum_loop, hq]
      rw [hstep]
      exact ih (c + 1) h1
    | false =>
      have hcnt : c + countTrue (false :: rest) = c + countTrue rest := by
        simp [countTrue]
      have h1 : c + countTrue rest < required := by rw [hcnt] at h; exact h
      rw [hcnt]
      have hstep : quorum_loop required c (false :: rest) =
          quorum_loop required c rest := by simp [quorum_loop]
      rw [hstep]
      exact ih c h1

lemma quorum_loop_false_skip (required : Int) (bs1 bs2 : List Bool) :
    ∀ c : Int, quorum_loop required c (bs1 ++ false :: bs2) =
      quorum_loop required c (bs1 ++ bs2) := by
  induction bs1 with
  | nil => intro c; simp [quorum_loop]
  | cons b rest ih =>
    intro c
    cases b with
    | true =>
      by_cases hq : required ≤ c + 1 <;> simp [quorum_loop, hq, ih]
    | false => simp [quorum_loop, ih]

lemma quorum_loop_congr_le (r1 r2 : Int) (bs : List Bool) :
    ∀ c : Int, r1 ≤ c → r2 ≤ c → quorum_loop r1 c bs = quorum_loop r2 c bs := by
  induction bs with
  | nil => intro c h1 h2; simp [quorum_loop, h1, h2]
  | cons b rest ih =>
    intro c h1 h2
    cases b with
    | true =>
      have h1a : r1 ≤ c + 1 := by omega
      have h2a : r2 ≤ c + 1 := by omega
      simp [quorum_loop, h1a, h2a]
    | false => simp [quorum_loop, ih c h1 h2]

lemma put_key_leader_eq (cfg : Config) (q : Int) (st : Store) (k : String)
    (v : JVal) (events : List AttemptEvent) (hrole : cfg.role = "leader") :
    put_key cfg q st k (.parsed ⟨some v⟩) events =
      (if cfg.followers.length = 0 then
         if q ≤ 0 then (⟨200, .okConfirmed 0⟩, write_local st k v)
         else (⟨500, .errReason "no followers"⟩, write_local st k v)
       else (quorum_loop q 0 (events.map replicate_to_follower),
             write_local st k v)) := by
  simp [put_key, hrole]

lemma put_key_store (cfg : Config) (q : Int) (st : Store) (k : String)
    (v : JVal) (events : List AttemptEvent) (hrole : cfg.role = "leader") :
    (put_key cfg q st k (.parsed ⟨some v⟩) events).2 = write_local st k v := by
  rw [put_key_leader_eq cfg q st k v events hrole]
  split
  · split <;> rfl
  · rfl

lemma write_local_read_back (st : Store) (k : String) (v : JVal) :
    (write_local st k v) k = some v := by
  simp [write_local]

/-!
Lock-discipline model.  The source has exactly one lock, `store_lock`;
each handler execution is abstracted to its sequence of lock operations
and accesses to the two pieces of shared mutable state (the `store` dict
and the `WRITE_QUORUM` integer), in source order.
-/

/-- Atomic events of a handler execution, for the lock analysis. -/
inductive Action where
  | acquire
  | release
  | readQuorum
  | writeQuorum
  | storeAccess
deriving DecidableEq, Repr

/-- `write_local` body: `async with store_lock: store[key] = value`. -/
def write_local_trace : List Action := [.acquire, .storeAccess, .release]

/-- `read_local` body: `async with store_lock: return store.get(key)`. -/
def read_local_trace : List Action := [.acquire, .storeAccess, .release]

/-- `put_key` main path: the local write (inside `write_local`), then the
bare read `required = WRITE_QUORUM`; the fan-out touches no shared
state. -/
def put_key_trace : List Action := write_local_trace ++ [.readQuorum]

/-- `admin_set_quorum` success path: the bare assignment
`WRITE_QUORUM = int(body["quorum"])`, then the bare read of
`WRITE_QUORUM` while building the response. -/
def admin_set_quorum_trace : List Action := [.writeQuorum, .readQuorum]

/-- `admin_get_quorum` body: one bare read of `WRITE_QUORUM`. -/
def admin_get_quorum_trace : List Action := [.readQuorum]

/-- Does every access to `WRITE_QUORUM` in the trace occur while at least
one lock is held?  `held` counts locks currently held. -/
def quorum_accesses_locked : List Action → Nat → Bool
  | [], _ => true
  | .acquire :: r, held => quorum_accesses_locked r (held + 1)
  | .release :: r, held => quorum_accesses_locked r (held - 1)
  | .readQuorum :: r, held => decide (0 < held) && quorum_accesses_locked r held
  | .writeQuorum :: r, held => decide (0 < held) && quorum_accesses_locked r held
  | .storeAccess :: r, held => quorum_accesses_locked r held

/-- Does every access to `WRITE_QUORUM` in the trace occur with no lock
held at all? -/
def quorum_accesses_unlocked : List Action → Nat → Bool
  | [], _ => true
  | .acquire :: r, held => quorum_accesses_unlocked r (held + 1)
  | .release :: r, held => quorum_accesses_unlocked r (held - 1)
  | .readQuorum :: r, held => decide (held = 0) && quorum_accesses_unlocked r held
  | .writeQuorum :: r, held => decide (held = 0) && quorum_accesses_unlocked r held
  | .storeAccess :: r, held => quorum_accesses_unlocked r held

/-- Does every access to the `store` dict in the trace occur while at
least one lock is held? -/
def store_accesses_locked : List Action → Nat → Bool
  | [], _ => true
  | .acquire :: r, held => store_accesses_locked r (held + 1)
  | .release :: r, held => store_accesses_locked r (held - 1)
  | .readQuorum :: r, held => store_accesses_locked r held
  | .writeQuorum :: r, held => store_accesses_locked r held
  | .storeAccess :: r, held => decide (0 < held) && store_accesses_locked r held

/-!
Concrete instances used by the witness theorems.
-/

/-- A leader with one configured follower. -/
def cfgLeader : Config := ⟨"leader", ["follower1:5000"]⟩

/-- A leader with zero configured followers. -/
def cfgLeaderNoFollowers : Config := ⟨"leader", []⟩

/-- A follower node. -/
def cfgFollower : Config := ⟨"follower", []⟩

/-!
Claim theorems.
-/

/-- C1. Read-your-writes on the leader: a `put(k, v)` accepted by the
leader (role leader, `value` present) leaves the local store updated to
`v` unconditionally — the same store results whatever the fan-out
outcome `events`, so a quorum failure performs no rollback — and a
subsequent `get(k)` on the same leader returns 200 with
`found: true, value: v`.  Values range over the data model's strings;
the JSON-null edge case is settled separately. -/
theorem put_then_get_leader (cfg : Config) (q : Int) (st : Store)
    (k s : String) (events : List AttemptEvent)
    (hrole : cfg.role = "leader") :
    (put_key cfg q st k (.parsed ⟨some (.str s)⟩) events).2 =
      write_local st k (.str s) ∧
    get_key (put_key cfg q st k (.parsed ⟨some (.str s)⟩) events).2 k =
      ⟨200, .foundVal (.str s)⟩ := by
  have h2 := put_key_store cfg q st k (.str s) events hrole
  refine ⟨h2, ?_⟩
  rw [h2]
  simp [get_key, read_local, write_local]

/-- Witness for C1 at concrete inputs, with a raising replication attempt
(quorum failure outcome). -/
theorem put_then_get_leader_witness :
    cfgLeader.role = "leader" ∧
    get_key (put_key cfgLeader 1 Store.empty "k"
        (.parsed ⟨some (.str "v")⟩) [.raised]).2 "k" =
      ⟨200, .foundVal (.str "v")⟩ :=
  ⟨rfl, (put_then_get_leader cfgLeader 1 Store.empty "k" "v" [.raised] rfl).2⟩

/-- C2. Quorum decision correctness: with at least one configured
follower, if the confirmations received reach `q` the write returns 200
with `replicas_confirmed ≥ q`; if all attempts complete with fewer than
`q` confirmations it returns 500 with `replicas_confirmed` equal to the
actual confirmed count and reason "quorum not reached". -/
theorem put_quorum_decision (cfg : Config) (q : Int) (st : Store)
    (k : String) (v : JVal) (events : List AttemptEvent)
    (hrole : cfg.role = "leader") (hf : cfg.followers ≠ []) :
    (q ≤ countTrue (events.map replicate_to_follower) →
      (put_key cfg q st k (.parsed ⟨some v⟩) events).1.status = 200 ∧
      ∃ n, (put_key cfg q st k (.parsed ⟨some v⟩) events).1.body =
          .okConfirmed n ∧ q ≤ n) ∧
    (countTrue (events.map replicate_to_follower) < q →
      (put_key cfg q st k (.parsed ⟨some v⟩) events).1 =
        ⟨500, .errQuorumCount (countTrue (events.map replicate_to_follower))
          "quorum not reached"⟩) := by
  have hlen : ¬ cfg.followers.length = 0 := by simpa using hf
  have h1 : (put_key cfg q st k (.parsed ⟨some v⟩) events).1 =
      quorum_loop q 0 (events.map replicate_to_follower) := by
    rw [put_key_leader_eq cfg q st k v events hrole]
    simp [hlen]
  constructor
  · intro hq
    obtain ⟨n, hn, hrn⟩ :=
      quorum_loop_success q (events.map replicate_to_follower) 0 (by omega)
    rw [h1, hn]
    exact ⟨rfl, n, rfl, hrn⟩
  · intro hq
    have hfail :=
      quorum_loop_fail q (events.map replicate_to_follower) 0 (by omega)
    rw [h1]
    simpa using hfail

/-- Witness for C2 at concrete inputs: one follower confirming with a
200 response, quorum 1. -/
theorem put_quorum_decision_witness :
    (1 : Int) ≤ countTrue ([AttemptEvent.response 200].map replicate_to_follower) ∧
    (put_key cfgLeader 1 Store.empty "k" (.parsed ⟨some (.str "v")⟩)
        [.response 200]).1.status = 200 ∧
    ∃ n, (put_key cfgLeader 1 Store.empty "k" (.parsed ⟨some (.str "v")⟩)
        [.response 200]).1.body = .okConfirmed n ∧ (1 : Int) ≤ n :=
  ⟨by decide,
   (put_quorum_decision cfgLeader 1 Store.empty "k" (.str "v") [.response 200]
      rfl (by decide)).1 (by decide)⟩

/-- C3. Zero-followers branch: on a leader with no configured followers,
a valid put succeeds with 200 and `replicas_confirmed = 0` when the
quorum is ≤ 0 and fails with 500 and reason "no followers" otherwise;
the result does not depend on `events`, i.e. no replication attempt is
issued in either case (only the unconditional local write happens). -/
theorem put_zero_followers (cfg : Config) (q : Int) (st : Store) (k : String)
    (v : JVal) (events : List AttemptEvent)
    (hrole : cfg.role = "leader") (hf : cfg.followers = []) :
    put_key cfg q st k (.parsed ⟨some v⟩) events =
      (if q ≤ 0 then (⟨200, .okConfirmed 0⟩, write_local st k v)
       else (⟨500, .errReason "no followers"⟩, write_local st k v)) := by
  rw [put_key_leader_eq cfg q st k v events hrole]
  simp [hf]

/-- Witness for C3 at concrete inputs: no followers, quorum 0. -/
theorem put_zero_followers_witness :
    cfgLeaderNoFollowers.role = "leader" ∧
    cfgLeaderNoFollowers.followers = [] ∧
    put_key cfgLeaderNoFollowers 0 Store.empty "x"
        (.parsed ⟨some (.str "y")⟩) [] =
      (if (0 : Int) ≤ 0 then
         (⟨200, .okConfirmed 0⟩, write_local Store.empty "x" (.str "y"))
       else (⟨500, .errReason "no followers"⟩,
             write_local Store.empty "x" (.str "y"))) :=
  ⟨rfl, rfl,
   put_zero_followers cfgLeaderNoFollowers 0 Store.empty "x" (.str "y") []
     rfl rfl⟩

/-- C4. Validation atomicity: a `/replicate` request missing `key` or
`value` returns 400 and leaves the store untouched; a `/put` request
missing `value` leaves the store untouched and returns a 4xx client
error (400 on the leader, 403 on a non-leader, where the role gate fires
first). -/
theorem validation_no_mutation :
    (∀ (st : Store) (body : ReplicateBody),
      body.key? = none ∨ body.value? = none →
      replicate st (.parsed body) = (⟨400, .err "bad request"⟩, st)) ∧
    (∀ (cfg : Config) (q : Int) (st : Store) (k : String)
        (events : List AttemptEvent),
      (put_key cfg q st k (.parsed ⟨none⟩) events).2 = st ∧
      400 ≤ (put_key cfg q st k (.parsed ⟨none⟩) events).1.status ∧
      (put_key cfg q st k (.parsed ⟨none⟩) events).1.status < 500) := by
  constructor
  · intro st body h
    obtain ⟨kf, vf⟩ := body
    cases kf with
    | none => cases vf <;> rfl
    | some k0 =>
      cases vf with
      | none => rfl
      | some v0 => simp at h
  · intro cfg q st k events
    by_cases hrole : cfg.role = "leader"
    · have h : put_key cfg q st k (.parsed ⟨none⟩) events =
          (⟨400, .err "bad request"⟩, st) := by simp [put_key, hrole]
      rw [h]
      exact ⟨rfl, by norm_num, by norm_num⟩
    · have h : put_key cfg q st k (.parsed ⟨none⟩) events =
          (⟨403, .err "not leader"⟩, st) := by simp [put_key, hrole]
      rw [h]
      exact ⟨rfl, by norm_num, by norm_num⟩

/-- Witness for C4 at concrete inputs: missing `key` on replicate and
missing `value` on put. -/
theorem validation_no_mutation_witness :
    replicate Store.empty (.parsed ⟨none, some (.str "v")⟩) =
      (⟨400, .err "bad request"⟩, Store.empty) ∧
    (put_key cfgLeader 1 Store.empty "k" (.parsed ⟨none⟩) []).2 = Store.empty :=
  ⟨validation_no_mutation.1 Store.empty ⟨none, some (.str "v")⟩ (Or.inl rfl),
   (validation_no_mutation.2 cfgLeader 1 Store.empty "k" []).1⟩

/-- C5. Replication-failure absorption: an attempt whose try-body raises
is absorbed into the Bool result `false` (a non-confirmation, nothing
propagates to the caller of the write), a non-200 response likewise
counts `false`, and a `false` entry in the completion-ordered results
affects the write response exactly as if the attempt were absent — it
changes only the confirmed count, never the shape of the outcome. -/
theorem replication_failure_absorbed :
    (∀ e : AttemptEvent, replicate_to_follower_try e = .error () →
      replicate_to_follower e = false) ∧
    (∀ s : Nat, s ≠ 200 → replicate_to_follower (.response s) = false) ∧
    (∀ (required c : Int) (bs1 bs2 : List Bool),
      quorum_loop required c (bs1 ++ false :: bs2) =
        quorum_loop required c (bs1 ++ bs2)) := by
  refine ⟨?_, ?_, ?_⟩
  · intro e h
    simp [replicate_to_follower, h]
  · intro s hs
    simp [replicate_to_follower, replicate_to_follower_try, hs]
  · intro required c bs1 bs2
    exact quorum_loop_false_skip required bs1 bs2 c

/-- Witness for C5 at concrete inputs: a raised attempt, a 500 response,
and a failed entry dropped from a fan-out. -/
theorem replication_failure_absorbed_witness :
    replicate_to_follower_try .raised = .error () ∧
    replicate_to_follower .raised = false ∧
    replicate_to_follower (.response 500) = false ∧
    quorum_loop 1 0 ([] ++ false :: [true]) = quorum_loop 1 0 ([] ++ [true]) :=
  ⟨rfl, replication_failure_absorbed.1 .raised rfl,
   replication_failure_absorbed.2.1 500 (by decide),
   replication_failure_absorbed.2.2 1 0 [] [true]⟩

/-- C6. Role gating without side effects: on a node not configured as
leader, every `put` and every `setQuorum` call — whatever the request
body — returns the fixed 403 not-leader error, with the store and the
quorum left exactly as they were. -/
theorem non_leader_rejected (cfg : Config) (hrole : cfg.role ≠ "leader") :
    (∀ (q : Int) (st : Store) (k : String) (req : Req PutBody)
        (events : List AttemptEvent),
      put_key cfg q st k req events = (⟨403, .err "not leader"⟩, st)) ∧
    (∀ (q : Int) (req : Req QuorumBody),
      admin_set_quorum cfg q req = (⟨403, .err "not leader"⟩, q)) := by
  constructor
  · intro q st k req events
    simp [put_key, hrole]
  · intro q req
    simp [admin_set_quorum, hrole]

/-- Witness for C6 at concrete inputs: a follower receiving a valid put
and a valid set_quorum. -/
theorem non_leader_rejected_witness :
    cfgFollower.role ≠ "leader" ∧
    put_key cfgFollower 1 Store.empty "k" (.parsed ⟨some (.str "v")⟩) [] =
      (⟨403, .err "not leader"⟩, Store.empty) ∧
    admin_set_quorum cfgFollower 1 (.parsed ⟨some 5⟩) =
      (⟨403, .err "not leader"⟩, 1) :=
  ⟨by decide,
   (non_leader_rejected cfgFollower (by decide)).1 1 Store.empty "k"
     (.parsed ⟨some (.str "v")⟩) [],
   (non_leader_rejected cfgFollower (by decide)).2 1 (.parsed ⟨some 5⟩)⟩

/-- C7. setQuorum/getQuorum round trip: for every integer n ≥ 0, a
successful `setQuorum(n)` on the leader overwrites the quorum with `n`
(no upper-bound validation) and answers 200 with
`status: ok, write_quorum: n`, and a subsequent `getQuorum()` (no role
gate) returns `n`. -/
theorem set_get_quorum_round_trip (cfg : Config) (q n : Int)
    (hrole : cfg.role = "leader") (_hn : 0 ≤ n) :
    admin_set_quorum cfg q (.parsed ⟨some n⟩) = (⟨200, .okQuorumSet n⟩, n) ∧
    admin_get_quorum n = ⟨200, .quorumVal n⟩ := by
  constructor
  · simp [admin_set_quorum, hrole]
  · rfl

/-- Witness for C7 at concrete inputs: quorum set to 7. -/
theorem set_get_quorum_round_trip_witness :
    (0 : Int) ≤ 7 ∧
    admin_set_quorum cfgLeader 1 (.parsed ⟨some 7⟩) =
      (⟨200, .okQuorumSet 7⟩, 7) ∧
    admin_get_quorum 7 = ⟨200, .quorumVal 7⟩ :=
  ⟨by norm_num,
   (set_get_quorum_round_trip cfgLeader 1 7 rfl (by norm_num)).1,
   (set_get_quorum_round_trip cfgLeader 1 7 rfl (by norm_num)).2⟩

/-- C8 counterexample: the claim that every read and every write of the
shared `WRITE_QUORUM` integer is performed under its own lock is false
of the code — in the handler traces the accesses are bare:
`admin_set_quorum` assigns and reads it with no lock held, and
`put_key` reads it with no lock held. -/
theorem quorum_lock_claim_false :
    ¬ (quorum_accesses_locked put_key_trace 0 = true ∧
       quorum_accesses_locked admin_set_quorum_trace 0 = true ∧
       quorum_accesses_locked admin_get_quorum_trace 0 = true) := by
  decide

/-- C8 amended: no lock guards `WRITE_QUORUM` — every read and write of
it in the handlers (the `required = WRITE_QUORUM` read in `put_key`, the
assignment and read-back in `admin_set_quorum`, the read in
`admin_get_quorum`) happens with no lock held; only the `store` dict is
accessed under `store_lock`. -/
theorem quorum_accesses_all_unlocked :
    quorum_accesses_unlocked put_key_trace 0 = true ∧
    quorum_accesses_unlocked admin_set_quorum_trace 0 = true ∧
    quorum_accesses_unlocked admin_get_quorum_trace 0 = true ∧
    store_accesses_locked write_local_trace 0 = true ∧
    store_accesses_locked read_local_trace 0 = true := by
  decide

/-- C9. Null-value edge case: `/replicate` accepts a JSON-null value
without validation and stores it; a key whose stored value is JSON null
reads back as 404 `found: false` (the read path's `None` sentinel), and
the same holds for a null written through `/put` on the leader — so
`found: false` does not imply the key was never written. -/
theorem null_value_reads_not_found :
    (∀ (st : Store) (k : String),
      replicate st (.parsed ⟨some k, some .null⟩) =
        (⟨200, .okStatus⟩, write_local st k .null)) ∧
    (∀ (st : Store) (k : String), st k = some JVal.null →
      get_key st k = ⟨404, .notFound⟩) ∧
    (∀ (st : Store) (k : String),
      (write_local st k .null) k = some JVal.null) ∧
    (∀ (cfg : Config) (q : Int) (st : Store) (k : String)
        (events : List AttemptEvent), cfg.role = "leader" →
      get_key (put_key cfg q st k (.parsed ⟨some .null⟩) events).2 k =
        ⟨404, .notFound⟩) := by
  refine ⟨?_, ?_, ?_, ?_⟩
  · intro st k; rfl
  · intro st k h
    simp [get_key, read_local, h]
  · intro st k
    exact write_local_read_back st k .null
  · intro cfg q st k events hrole
    rw [put_key_store cfg q st k .null events hrole]
    simp [get_key, read_local, write_local]

/-- Witness for C9 at concrete inputs: a null value replicated into the
empty store and then read. -/
theorem null_value_reads_not_found_witness :
    replicate Store.empty (.parsed ⟨some "k", some .null⟩) =
      (⟨200, .okStatus⟩, write_local Store.empty "k" .null) ∧
    (write_local Store.empty "k" JVal.null) "k" = some JVal.null ∧
    get_key (write_local Store.empty "k" JVal.null) "k" = ⟨404, .notFound⟩ :=
  ⟨null_value_reads_not_found.1 Store.empty "k",
   null_value_reads_not_found.2.2.1 Store.empty "k",
   null_value_reads_not_found.2.1 (write_local Store.empty "k" JVal.null) "k"
     (by decide)⟩

/-- C10. Negative-quorum acceptance: `setQuorum(n)` on the leader
succeeds for any `n < 0` and stores `n` verbatim (no lower bound
enforced), and a stored negative quorum behaves exactly like quorum 0
for subsequent writes: the put response is identical to the quorum-0
response and is always a 200 success (the zero-followers branch takes
the `required ≤ 0` success case, and the final
`confirmations ≥ required` check is trivially satisfied). -/
theorem negative_quorum_accepted (cfg : Config) (q n : Int) (st : Store)
    (k : String) (v : JVal) (events : List AttemptEvent)
    (hrole : cfg.role = "leader") (hn : n < 0) :
    admin_set_quorum cfg q (.parsed ⟨some n⟩) = (⟨200, .okQuorumSet n⟩, n) ∧
    put_key cfg n st k (.parsed ⟨some v⟩) events =
      put_key cfg 0 st k (.parsed ⟨some v⟩) events ∧
    (put_key cfg n st k (.parsed ⟨some v⟩) events).1.status = 200 := by
  have hset : admin_set_quorum cfg q (.parsed ⟨some n⟩) =
      (⟨200, .okQuorumSet n⟩, n) := by simp [admin_set_quorum, hrole]
  have hn0 : n ≤ 0 := le_of_lt hn
  have heq : put_key cfg n st k (.parsed ⟨some v⟩) events =
      put_key cfg 0 st k (.parsed ⟨some v⟩) events := by
    rw [put_key_leader_eq cfg n st k v events hrole,
        put_key_leader_eq cfg 0 st k v events hrole]
    by_cases hlen : cfg.followers.length = 0
    · simp [hlen, hn0]
    · have h := quorum_loop_congr_le n 0 (events.map replicate_to_follower)
        0 hn0 le_rfl
      simp [hlen, h]
  refine ⟨hset, heq, ?_⟩
  rw [heq, put_key_leader_eq cfg 0 st k v events hrole]
  by_cases hlen : cfg.followers.length = 0
  · simp [hlen]
  · obtain ⟨m, hm, _⟩ := quorum_loop_success 0 (events.map replicate_to_follower)
      0 (by have := countTrue_nonneg (events.map replicate_to_follower); omega)
    simp [hlen, hm]

/-- Witness for C10 at concrete inputs: quorum set to -1 on the leader,
then a put whose only replication attempt raises. -/
theorem negative_quorum_accepted_witness :
    cfgLeader.role = "leader" ∧ (-1 : Int) < 0 ∧
    admin_set_quorum cfgLeader 1 (.parsed ⟨some (-1)⟩) =
      (⟨200, .okQuorumSet (-1)⟩, -1) ∧
    (put_key cfgLeader (-1) Store.empty "k"
        (.parsed ⟨some (.str "v")⟩) [.raised]).1.status = 200 :=
  ⟨rfl, by norm_num,
   (negative_quorum_accepted cfgLeader 1 (-1) Store.empty "k" (.str "v")
      [.raised] rfl (by norm_num)).1,
   (negative_quorum_accepted cfgLeader 1 (-1) Store.empty "k" (.str "v")
      [.raised] rfl (by norm_num)).2.2⟩

end Lab4
